import Mathlib

/-!
Verification of the notebook material in
`doc/source/visualizing/TransferFunctionHelper_Tutorial.ipynb`
(three concatenated notebooks: the TransferFunctionHelper tutorial, the
OWLS particle examples, and the "Loading Data via Functions" tutorial).

The material defines two Python functions of its own (`showme` and
`my_function`), one construction loop (building `grid_data`), and a
sequence of calls into the external yt / numpy / matplotlib / IPython
libraries.  We embed:

  * the NaN-screening performed by `showme` (`im[im != im] = 0.0`),
    over an abstract scalar type `FVal` that is either a rational
    number or the IEEE NaN value, with IEEE inequality semantics;
  * the analytic field function `my_function` over the reals,
    following the notebook source line by line;
  * the `grid_data` construction loop as a fold over an abstract
    AMR-index tuple list;
  * the statement-level operation sequence of the three notebooks
    (`materialOps`) and the set of external calls they perform
    (`externalCalls`), for the claims about the call surface, event
    ordering and absence of error handling.
-/

set_option linter.unusedVariables false
set_option maxRecDepth 16384

namespace YtNotebooks

/-! ## Abstract IEEE scalar values and the NaN screen in `showme` -/

/-- A scalar entry of an image array: either NaN or an ordinary number
(modelled as a rational).  This abstracts the IEEE floating-point values
that numpy arrays hold, keeping exactly the structure the NaN screen
`im[im != im] = 0.0` depends on. -/
inductive FVal where
  | nan : FVal
  | num : ℚ → FVal
  deriving DecidableEq, Repr

/-- IEEE `!=` on abstract scalar values: any comparison involving NaN is
unequal; two numbers compare by value. -/
def fneq : FVal → FVal → Bool
  | FVal.nan, _ => true
  | _, FVal.nan => true
  | FVal.num a, FVal.num b => decide (a ≠ b)

/-- The NaN screen of `showme`: `im[im != im] = 0.0`, i.e. every entry
whose IEEE self-comparison is unequal (exactly the NaNs) is overwritten
with `0.0`. -/
def screenNaN (im : List FVal) : List FVal :=
  im.map fun v => if fneq v v then FVal.num 0 else v

/-- An RGBA bitmap as produced by the external `yt.write_bitmap`;
the external call is opaque, so we only record its argument. -/
structure Bitmap where
  data : List FVal
  deriving DecidableEq, Repr

/-- External `yt.write_bitmap(im, None)`: opaque library call, recorded
by its argument. -/
def yt_write_bitmap (im : List FVal) : Bitmap :=
  ⟨im⟩

/-- An inline notebook image as produced by the external IPython
`Image` constructor; opaque, recorded by its argument. -/
structure NotebookImage where
  bitmap : Bitmap
  deriving DecidableEq, Repr

/-- The notebook function `showme`: screen out NaNs in place, convert
to an RGBA bitmap with `yt.write_bitmap`, and wrap in an `Image`. -/
def showme (im : List FVal) : NotebookImage :=
  ⟨yt_write_bitmap (screenNaN im)⟩

/-! ## The analytic field function `my_function`

The third notebook defines, with fixed coefficient tuples

  x_coefficients = (100, 50, 30, 10, 20)
  y_coefficients = (20, 90, 80, 30, 30)
  z_coefficients = (50, 10, 90, 40, 40)

a function `my_function(grid, field_name)` that computes the cell
centers of the grid along each axis with `np.linspace`, a Gaussian
attenuation of the distance to the domain center, and per-axis sums of
sine modes, returning `atten * (xv[:,None,None] * yv[None,:,None] *
zv[None,None,:])`.  We embed the floating-point computation over ℝ and
the numpy broadcasting as nested lists. -/

/-- The grid object handed to a field-loading callback: the attributes
`my_function` reads (`LeftEdge`, `RightEdge`, `dds`,
`ActiveDimensions`), indexed by axis. -/
structure Grid where
  LeftEdge : Fin 3 → ℝ
  RightEdge : Fin 3 → ℝ
  dds : Fin 3 → ℝ
  ActiveDimensions : Fin 3 → ℕ

/-- Embedded `np.linspace(a, b, n)`: `n` evenly spaced points from `a` to `b`
inclusive (a single point is `a`; zero points is empty). -/
noncomputable def linspace (a b : ℝ) (n : ℕ) : List ℝ :=
  (List.range n).map fun i : ℕ => if n = 1 then a else a + (b - a) * (i : ℝ) / ((n : ℝ) - 1)

/-- The tuple `x_coefficients = (100, 50, 30, 10, 20)` of the 3D example. -/
noncomputable def x_coefficients : List ℝ := [100, 50, 30, 10, 20]

/-- The tuple `y_coefficients = (20, 90, 80, 30, 30)` of the 3D example. -/
noncomputable def y_coefficients : List ℝ := [20, 90, 80, 30, 30]

/-- The tuple `z_coefficients = (50, 10, 90, 40, 40)` of the 3D example. -/
noncomputable def z_coefficients : List ℝ := [50, 10, 90, 40, 40]

/-- Embedded `sum(c * np.sin(2 ** (1 + i) * (t * np.pi * 2)) for i, c in
enumerate(coeffs))`, evaluated at a single point `t`. -/
noncomputable def sumModes (coeffs : List ℝ) (t : ℝ) : ℝ :=
  (coeffs.enum.map fun p => p.2 * Real.sin (2 ^ (1 + p.1) * (t * Real.pi * 2))).sum

/-- The cell centers of `grid` along axis `a`:
`np.linspace(grid.LeftEdge[i] + grid.dds[i] / 2,
grid.RightEdge[i] - grid.dds[i] / 2, grid.ActiveDimensions[i])`. -/
noncomputable def cellCenters (grid : Grid) (a : Fin 3) : List ℝ :=
  linspace (grid.LeftEdge a + grid.dds a / 2) (grid.RightEdge a - grid.dds a / 2)
    (grid.ActiveDimensions a)

/-- One entry of the field returned by `my_function`, at cell center
`(xi, yj, zk)`:
`r = np.sqrt((x-0.5)**2 + (y-0.5)**2 + (z-0.5)**2)` broadcast to this
cell, `atten = np.exp(-20 * (1.1 * r**2))`, times the outer product of
the three mode sums. -/
noncomputable def myFunctionEntry (xi yj zk : ℝ) : ℝ :=
  Real.exp (-20 * (1.1 *
      Real.sqrt ((xi - 0.5) ^ 2 + (yj - 0.5) ^ 2 + (zk - 0.5) ^ 2) ^ 2)) *
    (sumModes x_coefficients xi * sumModes y_coefficients yj * sumModes z_coefficients zk)

/-- The notebook function `my_function(grid, field_name)`: the returned
3D array, as nested lists indexed in axis order, every entry the
attenuation at the cell center times the outer product of the per-axis
sine-mode sums.  The `field_name` argument is accepted, as in the
source, and never read. -/
noncomputable def my_function (grid : Grid) (field_name : String) : List (List (List ℝ)) :=
  (cellCenters grid 0).map fun xi =>
    (cellCenters grid 1).map fun yj =>
      (cellCenters grid 2).map fun zk => myFunctionEntry xi yj zk

/-! ## The `grid_data` construction loop

The third notebook builds the grid descriptors from
`yt.testing._amr_grid_index`:

    grid_data = []
    for level, le, re, dims in _amr_grid_index:
        grid_data.append(
            {"level": level, "left_edge": le, "right_edge": re,
             "dimensions": dims, "density": my_function})

`_amr_grid_index` itself lives in the external `yt.testing` module, so
we model the loop over an arbitrary list of index tuples. -/

/-- A Python value appearing in a grid-data dictionary: an integer, an
opaque array (named by provenance), or a callable (named by the Python
function it refers to). -/
inductive PyVal where
  | int : ℤ → PyVal
  | arr : String → PyVal
  | callable : String → PyVal
  deriving DecidableEq, Repr

/-- One tuple `(level, le, re, dims)` of `_amr_grid_index`. -/
structure AmrTuple where
  level : PyVal
  le : PyVal
  re : PyVal
  dims : PyVal
  deriving DecidableEq, Repr

/-- A Python dictionary, as the association list of its insertions in
source order. -/
abbrev PyDict := List (String × PyVal)

/-- The dictionary literal appended for one index tuple:
`{"level": level, "left_edge": le, "right_edge": re,
"dimensions": dims, "density": my_function}`. -/
def mkGridDict (t : AmrTuple) : PyDict :=
  [("level", t.level), ("left_edge", t.le), ("right_edge", t.re),
   ("dimensions", t.dims), ("density", PyVal.callable "my_function")]

/-- The construction loop: start from `grid_data = []` and append one
dictionary per tuple of the index. -/
def buildGridData (idx : List AmrTuple) : List PyDict :=
  idx.foldl (fun acc t => acc ++ [mkGridDict t]) []

/-! ## Statement-level inventory of the three notebooks

`materialOps` lists, in source order, every executable top-level
operation of the three notebooks (import statements excluded): external
library invocations, the two local function definitions, the two local
`showme` calls, the `grid_data` loop, and the literal / arithmetic
assignments of the third notebook.  Dataset handles are numbered: 0 for
the Enzo dataset of notebook 1, 1 for the OWLS snapshot of notebook 2,
2 for the AMR grids dataset of notebook 3. -/

/-- The external library a call belongs to, or `method` for a method /
subscript on an object obtained from a library. -/
inductive Lib where
  | yt
  | numpy
  | matplotlib
  | ipython
  | method
  deriving DecidableEq, Repr

/-- The kind of a top-level operation: a direct external-library
invocation, a local function definition, a call to a locally defined
function, a `for` loop, a literal assignment, an arithmetic computation
combining library calls, or (never occurring in this material) a
`try/except` handler or a retry. -/
inductive OpKind where
  | externalCall
  | localDef
  | localCall
  | loop
  | assign
  | compute
  | tryExcept
  | retry
  deriving DecidableEq, Repr

/-- The role of an operation in the load / configure / render
pipeline. -/
inductive EvKind where
  | load
  | configure
  | render
  | other
  deriving DecidableEq, Repr

/-- One top-level operation: its notebook (1 to 3), a name, its kind,
its pipeline role, and the dataset handle it acts on, if any. -/
structure Op where
  notebook : ℕ
  name : String
  kind : OpKind
  ev : EvKind
  ds : Option ℕ
  deriving DecidableEq, Repr

instance : Inhabited Op := ⟨⟨0, "", OpKind.assign, EvKind.other, none⟩⟩

/-- Shorthand for an external-library invocation operation. -/
def opE (nb : ℕ) (name : String) (ev : EvKind) (ds : Option ℕ) : Op :=
  ⟨nb, name, OpKind.externalCall, ev, ds⟩

/-- The top-level operations of the three notebooks, in source order. -/
def materialOps : List Op :=
  [ -- Notebook 1: TransferFunctionHelper tutorial
    ⟨1, "showme_def", OpKind.localDef, EvKind.other, none⟩,          -- 0
    opE 1 "load" EvKind.load (some 0),                               -- 1
    opE 1 "TransferFunctionHelper" EvKind.other (some 0),            -- 2
    opE 1 "TransferFunctionHelper" EvKind.other (some 0),            -- 3
    opE 1 "set_field" EvKind.configure (some 0),                     -- 4
    opE 1 "set_log" EvKind.configure (some 0),                       -- 5
    opE 1 "set_bounds" EvKind.configure (some 0),                    -- 6
    opE 1 "build_transfer_function" EvKind.configure (some 0),       -- 7
    opE 1 "add_layers" EvKind.configure (some 0),                    -- 8
    opE 1 "plot" EvKind.render (some 0),                             -- 9
    opE 1 "plot" EvKind.render (some 0),                             -- 10
    opE 1 "TransferFunctionHelper" EvKind.other (some 0),            -- 11
    opE 1 "set_field" EvKind.configure (some 0),                     -- 12
    opE 1 "set_bounds" EvKind.configure (some 0),                    -- 13
    opE 1 "set_log" EvKind.configure (some 0),                       -- 14
    opE 1 "build_transfer_function" EvKind.configure (some 0),       -- 15
    opE 1 "add_layers" EvKind.configure (some 0),                    -- 16
    opE 1 "map_to_colormap" EvKind.configure (some 0),               -- 17
    opE 1 "map_to_colormap" EvKind.configure (some 0),               -- 18
    opE 1 "plot" EvKind.render (some 0),                             -- 19
    opE 1 "volume_render" EvKind.render (some 0),                    -- 20
    opE 1 "get_source" EvKind.other (some 0),                        -- 21
    opE 1 "set_transfer_function" EvKind.configure (some 0),         -- 22
    opE 1 "render" EvKind.render (some 0),                           -- 23
    ⟨1, "showme", OpKind.localCall, EvKind.render, some 0⟩,          -- 24
    opE 1 "TransferFunctionHelper" EvKind.other (some 0),            -- 25
    opE 1 "set_field" EvKind.configure (some 0),                     -- 26
    opE 1 "set_bounds" EvKind.configure (some 0),                    -- 27
    opE 1 "set_log" EvKind.configure (some 0),                       -- 28
    opE 1 "build_transfer_function" EvKind.configure (some 0),       -- 29
    opE 1 "add_layers" EvKind.configure (some 0),                    -- 30
    opE 1 "map_to_colormap" EvKind.configure (some 0),               -- 31
    opE 1 "map_to_colormap" EvKind.configure (some 0),               -- 32
    opE 1 "plot" EvKind.render (some 0),                             -- 33
    opE 1 "set_transfer_function" EvKind.configure (some 0),         -- 34
    opE 1 "render" EvKind.render (some 0),                           -- 35
    ⟨1, "showme", OpKind.localCall, EvKind.render, some 0⟩,          -- 36
    -- Notebook 2: OWLS examples
    opE 2 "load_sample" EvKind.load (some 1),                        -- 37
    opE 2 "all_data" EvKind.other (some 1),                          -- 38
    opE 2 "field_list" EvKind.other (some 1),                        -- 39
    opE 2 "derived_field_list" EvKind.other (some 1),                -- 40
    opE 2 "particle_field_access" EvKind.other (some 1),             -- 41
    opE 2 "particle_field_access" EvKind.other (some 1),             -- 42
    opE 2 "particle_field_access" EvKind.other (some 1),             -- 43
    opE 2 "particle_field_access" EvKind.other (some 1),             -- 44
    opE 2 "ProjectionPlot" EvKind.render (some 1),                   -- 45
    opE 2 "show" EvKind.render (some 1),                             -- 46
    opE 2 "ProjectionPlot" EvKind.render (some 1),                   -- 47
    opE 2 "show" EvKind.render (some 1),                             -- 48
    -- Notebook 3: loading data via functions
    opE 3 "mgrid" EvKind.other none,                                 -- 49
    ⟨3, "coefficients_assign", OpKind.assign, EvKind.other, none⟩,   -- 50
    ⟨3, "y_modes_sum", OpKind.compute, EvKind.other, none⟩,          -- 51
    ⟨3, "atten_1d", OpKind.compute, EvKind.other, none⟩,             -- 52
    opE 3 "subplots" EvKind.other none,                              -- 53
    opE 3 "plot" EvKind.render none,                                 -- 54
    opE 3 "plot" EvKind.render none,                                 -- 55
    opE 3 "plot" EvKind.render none,                                 -- 56
    opE 3 "axis" EvKind.other none,                                  -- 57
    opE 3 "mgrid" EvKind.other none,                                 -- 58
    ⟨3, "x_coefficients_assign", OpKind.assign, EvKind.other, none⟩, -- 59
    ⟨3, "y_coefficients_assign", OpKind.assign, EvKind.other, none⟩, -- 60
    ⟨3, "z_modes_product", OpKind.compute, EvKind.other, none⟩,      -- 61
    ⟨3, "r_assign", OpKind.compute, EvKind.other, none⟩,             -- 62
    ⟨3, "atten_2d", OpKind.compute, EvKind.other, none⟩,             -- 63
    opE 3 "pcolormesh" EvKind.render none,                           -- 64
    opE 3 "pcolormesh" EvKind.render none,                           -- 65
    ⟨3, "x_coefficients_assign", OpKind.assign, EvKind.other, none⟩, -- 66
    ⟨3, "y_coefficients_assign", OpKind.assign, EvKind.other, none⟩, -- 67
    ⟨3, "z_coefficients_assign", OpKind.assign, EvKind.other, none⟩, -- 68
    ⟨3, "my_function_def", OpKind.localDef, EvKind.other, none⟩,     -- 69
    ⟨3, "grid_data_init", OpKind.assign, EvKind.other, none⟩,        -- 70
    ⟨3, "grid_data_loop", OpKind.loop, EvKind.other, none⟩,          -- 71
    opE 3 "load_amr_grids" EvKind.load (some 2),                     -- 72
    opE 3 "plot" EvKind.render (some 2),                             -- 73
    opE 3 "set_log" EvKind.configure (some 2),                       -- 74
    opE 3 "zoom" EvKind.render (some 2) ]                            -- 75

/-- For each render/display operation, the configuration operations
(by index into `materialOps`) whose effect it uses: the plots of each
TransferFunctionHelper use the configuration of that helper, the scene
renders and the `showme` displays use the transfer function last set on
the scene source, and the zoomed slice display uses the `set_log`
call. Pairs are `(render index, configuration index)`. -/
def rendersUse : List (ℕ × ℕ) :=
  [(9, 4), (9, 5), (9, 6), (9, 7), (9, 8),
   (10, 4), (10, 5), (10, 6), (10, 7), (10, 8),
   (19, 12), (19, 13), (19, 14), (19, 15), (19, 16), (19, 17), (19, 18),
   (23, 22), (24, 22),
   (33, 26), (33, 27), (33, 28), (33, 29), (33, 30), (33, 31), (33, 32),
   (35, 34), (36, 34),
   (75, 74)]

/-- The names of the operations of `materialOps` that are not direct
external-library invocations. -/
def nonExternalOpNames : List String :=
  ["showme_def", "showme", "my_function_def", "grid_data_init", "grid_data_loop",
   "coefficients_assign", "x_coefficients_assign", "y_coefficients_assign",
   "z_coefficients_assign", "y_modes_sum", "z_modes_product", "r_assign",
   "atten_1d", "atten_2d"]

/-! ## The external call surface -/

/-- One distinct external API call made somewhere in the material:
its library, its name, and (for the dataset loads) the literal string
argument it is given. -/
structure ECall where
  lib : Lib
  name : String
  arg : Option String
  deriving DecidableEq, Repr

/-- Every distinct external API function invoked anywhere in the three
notebooks (including inside the bodies of `showme` and `my_function`),
with the literal argument for the load calls. -/
def externalCalls : List ECall :=
  [⟨Lib.yt, "write_bitmap", none⟩,
   ⟨Lib.ipython, "Image", none⟩,
   ⟨Lib.yt, "load", some "Enzo_64/DD0043/data0043"⟩,
   ⟨Lib.yt, "TransferFunctionHelper", none⟩,
   ⟨Lib.method, "set_field", none⟩,
   ⟨Lib.method, "set_log", none⟩,
   ⟨Lib.method, "set_bounds", none⟩,
   ⟨Lib.method, "build_transfer_function", none⟩,
   ⟨Lib.method, "add_layers", none⟩,
   ⟨Lib.method, "plot", none⟩,
   ⟨Lib.numpy, "logspace", none⟩,
   ⟨Lib.method, "map_to_colormap", none⟩,
   ⟨Lib.yt, "volume_render", none⟩,
   ⟨Lib.method, "get_source", none⟩,
   ⟨Lib.method, "set_transfer_function", none⟩,
   ⟨Lib.method, "render", none⟩,
   ⟨Lib.yt, "load_sample", some "snapshot_033"⟩,
   ⟨Lib.method, "all_data", none⟩,
   ⟨Lib.yt, "ProjectionPlot", none⟩,
   ⟨Lib.method, "show", none⟩,
   ⟨Lib.numpy, "mgrid", none⟩,
   ⟨Lib.numpy, "sin", none⟩,
   ⟨Lib.numpy, "exp", none⟩,
   ⟨Lib.numpy, "sqrt", none⟩,
   ⟨Lib.numpy, "linspace", none⟩,
   ⟨Lib.numpy, "array", none⟩,
   ⟨Lib.matplotlib, "subplots", none⟩,
   ⟨Lib.method, "axis", none⟩,
   ⟨Lib.matplotlib, "pcolormesh", none⟩,
   ⟨Lib.yt, "load_amr_grids", none⟩,
   ⟨Lib.method, "zoom", none⟩]

/-- The six external functions named by the overview of the specification. -/
def specSixNames : List String :=
  ["load", "load_sample", "load_amr_grids", "ProjectionPlot",
   "TransferFunctionHelper", "volume_render"]

/-! ## Auxiliary accessors and concrete inputs for witnesses -/

/-- The operation at position `i` of the material (a default operation
past the end). -/
def opAt (i : ℕ) : Op :=
  materialOps.getD i default

/-- The cell center of `grid` along axis `a` at index `i` (the linspace
entry), with default `0` out of range. -/
noncomputable def cellCenter (grid : Grid) (a : Fin 3) (i : ℕ) : ℝ :=
  (cellCenters grid a).getD i 0

/-- Entry `(i, j, k)` of a nested-list 3D array, default `0` out of
range. -/
def getEntry3 (m : List (List (List ℝ))) (i j k : ℕ) : ℝ :=
  ((m.getD i []).getD j []).getD k 0

/-- A concrete grid covering `[0,1]^3` with `2 × 2 × 2` cells, used to
exercise the theorems about `my_function` on one input. -/
noncomputable def unitGrid : Grid :=
  ⟨fun _ => 0, fun _ => 1, fun _ => 1 / 2, fun _ => 2⟩

/-- A concrete one-entry AMR index, used to exercise the theorems about
the `grid_data` construction on one input. -/
def sampleAmrIndex : List AmrTuple :=
  [⟨PyVal.int 0, PyVal.arr "le0", PyVal.arr "re0", PyVal.arr "dims0"⟩]

/-! ## Supporting lemmas -/

theorem fneq_self_eq_true_iff (v : FVal) : fneq v v = true ↔ v = FVal.nan := by
  cases v <;> simp [fneq]

theorem length_linspace (a b : ℝ) (n : ℕ) : (linspace a b n).length = n := by
  unfold linspace
  rw [List.length_map, List.length_range]

theorem length_cellCenters (grid : Grid) (a : Fin 3) :
    (cellCenters grid a).length = grid.ActiveDimensions a := by
  unfold cellCenters
  exact length_linspace _ _ _

theorem buildGridData_eq_map (idx : List AmrTuple) :
    buildGridData idx = idx.map mkGridDict := by
  have h : ∀ (l : List AmrTuple) (acc : List PyDict),
      l.foldl (fun acc t => acc ++ [mkGridDict t]) acc = acc ++ l.map mkGridDict := by
    intro l
    induction l with
    | nil => intro acc; simp
    | cons t l ih =>
        intro acc
        simp [List.foldl_cons, ih]
  simpa using h idx []

theorem getD_map_of_lt {α β : Type} (f : α → β) :
    ∀ (l : List α) (i : ℕ), i < l.length → ∀ (d : β) (d0 : α),
      (l.map f).getD i d = f (l.getD i d0)
  | [], i, h => by simp at h
  | a :: l, 0, _ => by intro d d0; rfl
  | a :: l, i + 1, h => by
      intro d d0
      have h2 : i < l.length := by simpa using h
      simpa using getD_map_of_lt f l i h2 d d0

/-! ## Claim theorems -/

/-- C3: for every image array `im` passed to `showme`, the NaN screen
`im[im != im] = 0.0` sets exactly the NaN entries of `im` to `0.0`,
leaves every non-NaN entry unchanged, and afterwards `im` contains no
NaN entry (and keeps its length). -/
theorem c3_showme_nan_screen (im : List FVal) (i : ℕ) (v : FVal)
    (h : im.get? i = some v) :
    ((v = FVal.nan → (screenNaN im).get? i = some (FVal.num 0)) ∧
     (v ≠ FVal.nan → (screenNaN im).get? i = some v)) ∧
    FVal.nan ∉ screenNaN im ∧ (screenNaN im).length = im.length := by
  have h2 : (screenNaN im).get? i = some (if fneq v v then FVal.num 0 else v) := by
    unfold screenNaN
    rw [List.get?_map, h]
    rfl
  refine ⟨⟨?_, ?_⟩, ?_, ?_⟩
  · intro hv
    subst hv
    simpa [fneq] using h2
  · intro hv
    rw [h2]
    cases v with
    | nan => exact absurd rfl hv
    | num q => simp [fneq]
  · intro hmem
    unfold screenNaN at hmem
    obtain ⟨w, hw, hweq⟩ := List.mem_map.mp hmem
    cases w with
    | nan => simp [fneq] at hweq
    | num q => simp [fneq] at hweq
  · unfold screenNaN
    rw [List.length_map]

/-- Witness for C3 at the concrete image `[NaN, 1]`: the hypothesis
holds at index 0 and the NaN there is replaced by `0.0`. -/
theorem c3_showme_nan_screen_witness :
    [FVal.nan, FVal.num 1].get? 0 = some FVal.nan ∧
      (screenNaN [FVal.nan, FVal.num 1]).get? 0 = some (FVal.num 0) :=
  ⟨rfl, ((c3_showme_nan_screen [FVal.nan, FVal.num 1] 0 FVal.nan rfl).1.1 rfl)⟩

/-- C4: `my_function` is deterministic and independent of its
`field_name` argument: two grids with equal `LeftEdge`, `RightEdge`,
`dds` and `ActiveDimensions` give equal results under any two field
names, so the result is a function of the grid geometry alone. -/
theorem c4_my_function_geometry_only (g1 g2 : Grid) (f1 f2 : String)
    (hL : g1.LeftEdge = g2.LeftEdge) (hR : g1.RightEdge = g2.RightEdge)
    (hd : g1.dds = g2.dds) (hA : g1.ActiveDimensions = g2.ActiveDimensions) :
    my_function g1 f1 = my_function g2 f2 := by
  have hg : g1 = g2 := by
    cases g1
    cases g2
    simp only [Grid.mk.injEq]
    exact ⟨hL, hR, hd, hA⟩
  subst hg
  rfl

/-- Witness for C4 at the concrete `unitGrid` and the field names
`"density"` and `"temperature"`. -/
theorem c4_my_function_geometry_only_witness :
    unitGrid.LeftEdge = unitGrid.LeftEdge ∧
      my_function unitGrid "density" = my_function unitGrid "temperature" :=
  ⟨rfl, c4_my_function_geometry_only unitGrid unitGrid "density" "temperature" rfl rfl rfl rfl⟩

/-- C10: for every grid with positive `ActiveDimensions`
`(n0, n1, n2)`, `my_function` returns a 3D array of exactly shape
`(n0, n1, n2)` whose `(i, j, k)` entry is the Gaussian attenuation at
the cell center times the outer product of the three one-dimensional
sums of sine modes. -/
theorem c10_my_function_shape (g : Grid) (fn : String)
    (h0 : 0 < g.ActiveDimensions 0) (h1 : 0 < g.ActiveDimensions 1)
    (h2 : 0 < g.ActiveDimensions 2) :
    (my_function g fn).length = g.ActiveDimensions 0 ∧
    (∀ row ∈ my_function g fn, row.length = g.ActiveDimensions 1 ∧
      ∀ col ∈ row, col.length = g.ActiveDimensions 2) ∧
    (∀ i j k, i < g.ActiveDimensions 0 → j < g.ActiveDimensions 1 →
      k < g.ActiveDimensions 2 →
      getEntry3 (my_function g fn) i j k =
        myFunctionEntry (cellCenter g 0 i) (cellCenter g 1 j) (cellCenter g 2 k)) := by
  refine ⟨?_, ?_, ?_⟩
  · unfold my_function
    rw [List.length_map]
    exact length_cellCenters g 0
  · intro row hrow
    unfold my_function at hrow
    obtain ⟨xi, hxi, hroweq⟩ := List.mem_map.mp hrow
    subst hroweq
    constructor
    · rw [List.length_map]
      exact length_cellCenters g 1
    · intro col hcol
      obtain ⟨yj, hyj, hcoleq⟩ := List.mem_map.mp hcol
      subst hcoleq
      rw [List.length_map]
      exact length_cellCenters g 2
  · intro i j k hi hj hk
    have hx : i < (cellCenters g 0).length := by rw [length_cellCenters]; exact hi
    have hy : j < (cellCenters g 1).length := by rw [length_cellCenters]; exact hj
    have hz : k < (cellCenters g 2).length := by rw [length_cellCenters]; exact hk
    unfold getEntry3 my_function cellCenter
    rw [getD_map_of_lt _ _ _ hx _ 0]
    rw [getD_map_of_lt _ _ _ hy _ 0]
    rw [getD_map_of_lt _ _ _ hz _ 0]

/-- Witness for C10 at the concrete `unitGrid`, whose dimensions
`(2, 2, 2)` are positive: the returned nested list has shape
`(2, 2, 2)` and the stated entries. -/
theorem c10_my_function_shape_witness :
    (0 < unitGrid.ActiveDimensions 0 ∧ 0 < unitGrid.ActiveDimensions 1 ∧
      0 < unitGrid.ActiveDimensions 2) ∧
    ((my_function unitGrid "density").length = unitGrid.ActiveDimensions 0 ∧
      (∀ row ∈ my_function unitGrid "density",
        row.length = unitGrid.ActiveDimensions 1 ∧
        ∀ col ∈ row, col.length = unitGrid.ActiveDimensions 2) ∧
      (∀ i j k, i < unitGrid.ActiveDimensions 0 → j < unitGrid.ActiveDimensions 1 →
        k < unitGrid.ActiveDimensions 2 →
        getEntry3 (my_function unitGrid "density") i j k =
          myFunctionEntry (cellCenter unitGrid 0 i) (cellCenter unitGrid 1 j)
            (cellCenter unitGrid 2 k))) :=
  ⟨⟨Nat.zero_lt_succ 1, Nat.zero_lt_succ 1, Nat.zero_lt_succ 1⟩,
    c10_my_function_shape unitGrid "density" (Nat.zero_lt_succ 1) (Nat.zero_lt_succ 1)
      (Nat.zero_lt_succ 1)⟩

/-- C2: for every tuple of the AMR index, the dictionary appended to
`grid_data` supplies the plain function `my_function` — a callable, not
a precomputed array — as the value of its `"density"` field. -/
theorem c2_density_is_callable (idx : List AmrTuple) (d : PyDict)
    (hd : d ∈ buildGridData idx) :
    List.lookup "density" d = some (PyVal.callable "my_function") ∧
    ∀ s, List.lookup "density" d ≠ some (PyVal.arr s) := by
  rw [buildGridData_eq_map] at hd
  obtain ⟨t, ht, hdeq⟩ := List.mem_map.mp hd
  subst hdeq
  have hl : List.lookup "density" (mkGridDict t) = some (PyVal.callable "my_function") := by
    simp [mkGridDict, List.lookup]
  refine ⟨hl, ?_⟩
  intro s hs
  rw [hl] at hs
  simp at hs

/-- Witness for C2 at the concrete one-entry index `sampleAmrIndex`. -/
theorem c2_density_is_callable_witness :
    mkGridDict ⟨PyVal.int 0, PyVal.arr "le0", PyVal.arr "re0", PyVal.arr "dims0"⟩ ∈
        buildGridData sampleAmrIndex ∧
      List.lookup "density"
          (mkGridDict ⟨PyVal.int 0, PyVal.arr "le0", PyVal.arr "re0", PyVal.arr "dims0"⟩) =
        some (PyVal.callable "my_function") :=
  ⟨by simp [sampleAmrIndex, buildGridData],
    (c2_density_is_callable sampleAmrIndex _ (by simp [sampleAmrIndex, buildGridData])).1⟩

/-- C5: every dictionary appended to `grid_data` has exactly the keys
`"level"`, `"left_edge"`, `"right_edge"`, `"dimensions"` and the single
field key `"density"`, with the first four values taken in order from
the corresponding `_amr_grid_index` tuple; one dictionary is produced
per tuple. -/
theorem c5_grid_dict_shape (idx : List AmrTuple) (i : ℕ)
    (hi : i < (buildGridData idx).length) :
    (buildGridData idx).length = idx.length ∧
    ∃ hi2 : i < idx.length,
      ((buildGridData idx).get ⟨i, hi⟩).map Prod.fst =
        ["level", "left_edge", "right_edge", "dimensions", "density"] ∧
      ((buildGridData idx).get ⟨i, hi⟩).map Prod.snd =
        [(idx.get ⟨i, hi2⟩).level, (idx.get ⟨i, hi2⟩).le, (idx.get ⟨i, hi2⟩).re,
         (idx.get ⟨i, hi2⟩).dims, PyVal.callable "my_function"] := by
  have hlen : (buildGridData idx).length = idx.length := by
    rw [buildGridData_eq_map, List.length_map]
  have hi2 : i < idx.length := hlen ▸ hi
  have e1 : (buildGridData idx).get? i = some ((buildGridData idx).get ⟨i, hi⟩) :=
    List.get?_eq_get hi
  have e2 : idx.get? i = some (idx.get ⟨i, hi2⟩) := List.get?_eq_get hi2
  have e3 : (buildGridData idx).get? i = some (mkGridDict (idx.get ⟨i, hi2⟩)) := by
    rw [buildGridData_eq_map, List.get?_map, e2]
    rfl
  have e4 : (buildGridData idx).get ⟨i, hi⟩ = mkGridDict (idx.get ⟨i, hi2⟩) :=
    Option.some.inj (e1.symm.trans e3)
  refine ⟨hlen, hi2, ?_, ?_⟩
  · rw [e4]
    rfl
  · rw [e4]
    rfl

/-- Witness for C5 at the concrete one-entry index `sampleAmrIndex`,
position 0. -/
theorem c5_grid_dict_shape_witness :
    (0 < (buildGridData sampleAmrIndex).length) ∧
      ((buildGridData sampleAmrIndex).length = sampleAmrIndex.length ∧
        ∃ _ : 0 < sampleAmrIndex.length,
          ((buildGridData sampleAmrIndex).get ⟨0, by simp [buildGridData, sampleAmrIndex]⟩).map
              Prod.fst =
            ["level", "left_edge", "right_edge", "dimensions", "density"] ∧
          ((buildGridData sampleAmrIndex).get ⟨0, by simp [buildGridData, sampleAmrIndex]⟩).map
              Prod.snd =
            [(sampleAmrIndex.get ⟨0, by simp [sampleAmrIndex]⟩).level,
             (sampleAmrIndex.get ⟨0, by simp [sampleAmrIndex]⟩).le,
             (sampleAmrIndex.get ⟨0, by simp [sampleAmrIndex]⟩).re,
             (sampleAmrIndex.get ⟨0, by simp [sampleAmrIndex]⟩).dims,
             PyVal.callable "my_function"]) :=
  ⟨by simp [buildGridData, sampleAmrIndex],
    c5_grid_dict_shape sampleAmrIndex 0 (by simp [buildGridData, sampleAmrIndex])⟩

/-- C1 counterexample: the claim that every operation of the material
is a direct invocation of an external library function is false at the
definition of `my_function` in notebook 3, which is a local function
definition, not an external call. -/
theorem c1_counterexample_my_function_def :
    (⟨3, "my_function_def", OpKind.localDef, EvKind.other, none⟩ : Op) ∈ materialOps ∧
      (⟨3, "my_function_def", OpKind.localDef, EvKind.other, none⟩ : Op).kind ≠
        OpKind.externalCall := by
  constructor
  · exact List.get?_mem (rfl : materialOps.get? 69 = some _)
  · intro h
    exact OpKind.noConfusion h

/-- C1 amended: every operation of the material is a direct invocation
of an external library function, except for the definitions of `showme`
and `my_function`, the two `showme` calls, the `grid_data`
initialization and construction loop, and the literal / arithmetic
assignments of notebook 3. -/
theorem c1_amended_operations (o : Op) (ho : o ∈ materialOps) :
    o.kind = OpKind.externalCall ∨ o.name ∈ nonExternalOpNames := by
  revert o
  decide

/-- Witness for the amended C1 at the `yt.load` operation of
notebook 1, which is an external call. -/
theorem c1_amended_operations_witness :
    (opE 1 "load" EvKind.load (some 0) ∈ materialOps) ∧
      ((opE 1 "load" EvKind.load (some 0)).kind = OpKind.externalCall ∨
        (opE 1 "load" EvKind.load (some 0)).name ∈ nonExternalOpNames) :=
  ⟨List.get?_mem (rfl : materialOps.get? 1 = some _),
    c1_amended_operations _ (List.get?_mem (rfl : materialOps.get? 1 = some _))⟩

/-- C6: in every notebook, operations follow the order load, then
configure, then render/display: every configuration or render/display
operation on a dataset is preceded by the load of that dataset, and
every render/display operation comes after each configuration
operation whose effect it uses. -/
theorem c6_pipeline_order :
    (∀ i, i < materialOps.length →
      ((opAt i).ev = EvKind.configure ∨ (opAt i).ev = EvKind.render) →
      (opAt i).ds.isSome = true →
      ∃ j, j < i ∧ (opAt j).ev = EvKind.load ∧ (opAt j).ds = (opAt i).ds) ∧
    (∀ p ∈ rendersUse,
      p.2 < p.1 ∧ p.1 < materialOps.length ∧
      (opAt p.1).ev = EvKind.render ∧ (opAt p.2).ev = EvKind.configure ∧
      (opAt p.1).ds = (opAt p.2).ds) := by
  constructor
  · decide
  · decide

/-- Witness for C6 at operation 4 (`tfh.set_field`, a configuration on
dataset 0): a load of dataset 0 precedes it. -/
theorem c6_pipeline_order_witness :
    (4 < materialOps.length ∧
      ((opAt 4).ev = EvKind.configure ∨ (opAt 4).ev = EvKind.render) ∧
      (opAt 4).ds.isSome = true) ∧
    (∃ j, j < 4 ∧ (opAt j).ev = EvKind.load ∧ (opAt j).ds = (opAt 4).ds) :=
  ⟨⟨by decide, by decide, by decide⟩,
    c6_pipeline_order.1 4 (by decide) (by decide) (by decide)⟩

/-- C7 counterexample: the claim that every external library API
function invoked by the material is one of the six listed functions is
false at `yt.write_bitmap`, which `showme` invokes and which is not
among the six. -/
theorem c7_counterexample_write_bitmap :
    (⟨Lib.yt, "write_bitmap", none⟩ : ECall) ∈ externalCalls ∧
      "write_bitmap" ∉ specSixNames := by
  constructor
  · exact List.get?_mem (rfl : externalCalls.get? 0 = some _)
  · decide

/-- C7 amended: every module-level yt function invoked by the material
is one of the six listed functions or `yt.write_bitmap`; the remaining
external calls are numpy, matplotlib and IPython functions, and methods
on objects obtained from the libraries. -/
theorem c7_amended_call_surface (c : ECall) (hc : c ∈ externalCalls)
    (hyt : c.lib = Lib.yt) :
    c.name ∈ specSixNames ++ ["write_bitmap"] := by
  revert c
  decide

/-- Witness for the amended C7 at the `yt.load` call. -/
theorem c7_amended_call_surface_witness :
    ((⟨Lib.yt, "load", some "Enzo_64/DD0043/data0043"⟩ : ECall) ∈ externalCalls ∧
      (⟨Lib.yt, "load", some "Enzo_64/DD0043/data0043"⟩ : ECall).lib = Lib.yt) ∧
      (⟨Lib.yt, "load", some "Enzo_64/DD0043/data0043"⟩ : ECall).name ∈
        specSixNames ++ ["write_bitmap"] :=
  ⟨⟨List.get?_mem (rfl : externalCalls.get? 2 = some _), rfl⟩,
    c7_amended_call_surface _ (List.get?_mem (rfl : externalCalls.get? 2 = some _)) rfl⟩

/-- C8: the material demonstrates each advertised use of the external
call surface: loading from a disk path, loading from a named sample,
constructing an AMR dataset whose field entry is a callable, selecting
a region of all data, building and rendering transfer functions, and
creating projection plots. -/
theorem c8_advertised_surface_demonstrated :
    (⟨Lib.yt, "load", some "Enzo_64/DD0043/data0043"⟩ : ECall) ∈ externalCalls ∧
    (⟨Lib.yt, "load_sample", some "snapshot_033"⟩ : ECall) ∈ externalCalls ∧
    (⟨Lib.yt, "load_amr_grids", none⟩ : ECall) ∈ externalCalls ∧
    (∀ t : AmrTuple, ("density", PyVal.callable "my_function") ∈ mkGridDict t) ∧
    (⟨Lib.method, "all_data", none⟩ : ECall) ∈ externalCalls ∧
    (⟨Lib.method, "build_transfer_function", none⟩ : ECall) ∈ externalCalls ∧
    (⟨Lib.method, "render", none⟩ : ECall) ∈ externalCalls ∧
    (⟨Lib.yt, "ProjectionPlot", none⟩ : ECall) ∈ externalCalls := by
  refine ⟨?_, ?_, ?_, ?_, ?_, ?_, ?_, ?_⟩
  · exact List.get?_mem (rfl : externalCalls.get? 2 = some _)
  · exact List.get?_mem (rfl : externalCalls.get? 16 = some _)
  · exact List.get?_mem (rfl : externalCalls.get? 29 = some _)
  · intro t
    simp [mkGridDict]
  · exact List.get?_mem (rfl : externalCalls.get? 17 = some _)
  · exact List.get?_mem (rfl : externalCalls.get? 7 = some _)
  · exact List.get?_mem (rfl : externalCalls.get? 15 = some _)
  · exact List.get?_mem (rfl : externalCalls.get? 18 = some _)

/-- C9: no error handling, retries, or failure-recovery logic is
present in the material: no operation is a `try/except` handler or a
retry, and the two locally defined functions are total — `showme`
yields a bitmap of the full image on every input, and `my_function`
yields a full field array on every grid. -/
theorem c9_no_error_handling :
    (∀ o ∈ materialOps, o.kind ≠ OpKind.tryExcept ∧ o.kind ≠ OpKind.retry) ∧
    (∀ im, (showme im).bitmap.data.length = im.length) ∧
    (∀ g fn, (my_function g fn).length = g.ActiveDimensions 0) := by
  refine ⟨by decide, ?_, ?_⟩
  · intro im
    show (screenNaN im).length = im.length
    unfold screenNaN
    rw [List.length_map]
  · intro g fn
    unfold my_function
    rw [List.length_map]
    exact length_cellCenters g 0

/-- Witness for C9 at the first operation of the material. -/
theorem c9_no_error_handling_witness :
    ((⟨1, "showme_def", OpKind.localDef, EvKind.other, none⟩ : Op) ∈ materialOps) ∧
      ((⟨1, "showme_def", OpKind.localDef, EvKind.other, none⟩ : Op).kind ≠ OpKind.tryExcept ∧
        (⟨1, "showme_def", OpKind.localDef, EvKind.other, none⟩ : Op).kind ≠ OpKind.retry) :=
  ⟨List.get?_mem (rfl : materialOps.get? 0 = some _),
    c9_no_error_handling.1 _ (List.get?_mem (rfl : materialOps.get? 0 = some _))⟩

end YtNotebooks
